import Mathlib

/-!
Shallow embedding of the board-game-shelf server (Express + Prisma/PostgreSQL).

The database state is a record of tables (lists of rows); each route handler
of src/routes/index.routes.ts becomes a pure function taking the state and
returning the handler's result together with the successor state.  Row ids
(TEXT cuid in the schema) are modelled as an opaque `Nat` drawn from a
freshness counter.  Scalar payload columns that no modelled handler ever
reads (genre, minPlayers, maxPlayers, playTime, publisher, age, rating,
coverImage, timestamps) are elided from the row records; `rating` in
particular is DOUBLE PRECISION and is never consulted by any route logic.
Foreign-key behaviour (ON DELETE RESTRICT for Session/Wishlist/File.gameId,
ON DELETE CASCADE for the _GameToTag and _PlayerToSession join tables) is
taken from the migration SQL.
-/

namespace BoardGameShelf

abbrev EntityId := Nat

/-- Game row (table "Game"): `isOwned BOOLEAN NOT NULL`, `myRating INTEGER`
nullable; other scalar columns are payload never read by the handlers. -/
structure Game where
  id : EntityId
  title : String
  isOwned : Bool
  myRating : Option Int
deriving DecidableEq, Repr

/-- Wishlist row (table "Wishlist"): `gameId` carries a UNIQUE index
("Wishlist_gameId_key"); the addWishlist handler always stores a string
reason (`req.body?.reason || ""`). -/
structure Wishlist where
  id : EntityId
  reason : String
  gameId : EntityId
deriving DecidableEq, Repr

/-- Tag row (table "Tag"): `title` has a UNIQUE index ("Tag_title_key"). -/
structure Tag where
  id : EntityId
  title : String
deriving DecidableEq, Repr

/-- Player row (table "Player"): `name` has a UNIQUE index ("Player_name_key"). -/
structure Player where
  id : EntityId
  name : String
deriving DecidableEq, Repr

/-- Session row (table "Session"): dates are modelled as integers. -/
structure Session where
  id : EntityId
  date : Int
  notes : Option String
  gameId : EntityId
deriving DecidableEq, Repr

/-- File row (table "File"). -/
structure File where
  id : EntityId
  title : String
  link : String
  gameId : EntityId
deriving DecidableEq, Repr

/-- The whole database: one list per table, the implicit many-to-many join
tables _GameToTag (gameId, tagId) and _PlayerToSession (playerId, sessionId),
and a freshness counter standing for cuid generation. -/
structure DB where
  games : List Game
  wishlists : List Wishlist
  tags : List Tag
  players : List Player
  sessions : List Session
  files : List File
  gameTags : List (EntityId × EntityId)
  sessionPlayers : List (EntityId × EntityId)
  nextId : EntityId
deriving DecidableEq, Repr

def emptyDB : DB :=
  { games := [], wishlists := [], tags := [], players := [], sessions := []
    files := [], gameTags := [], sessionPlayers := [], nextId := 0 }

/-- Business errors the wishlist/session handlers map to 404/400 responses. -/
inductive ApiError where
  | NotFound
  | InvalidState
  | Conflict
deriving DecidableEq, Repr

/-- HTTP status each business error is sent with: 404 for a missing game,
400 for "Cannot add owned game to wishlist" / "Game is not in wishlist"
(InvalidState) and "Game is already in wishlist" (Conflict). -/
def ApiError.toStatus : ApiError → Nat
  | ApiError.NotFound => 404
  | ApiError.InvalidState => 400
  | ApiError.Conflict => 400

/-- Errors raised by the Prisma layer itself: a missing record on
update/delete (P2025) or a restrictive foreign key blocking a delete (P2003);
the handlers catch these and answer 500. -/
inductive DbError where
  | RecordNotFound
  | ForeignKeyRestrict
deriving DecidableEq, Repr

/-- `prisma.game.findUnique/findFirst({ where: { id: gameId } })`. -/
def findGame (db : DB) (gid : EntityId) : Option Game :=
  db.games.find? (fun g => g.id == gid)

/-- `prisma.wishlist.findUnique({ where: { gameId } })` — gameId is unique. -/
def findWishlistByGame (db : DB) (gid : EntityId) : Option Wishlist :=
  db.wishlists.find? (fun w => w.gameId == gid)

/-- Number of Wishlist rows referencing a game. -/
def wishlistCountFor (db : DB) (gid : EntityId) : Nat :=
  (db.wishlists.filter (fun w => w.gameId == gid)).length

/-- The two kinds the get-or-create resolver works on. -/
inductive EntityKind where
  | Tag
  | Player
deriving DecidableEq, Repr

/-- Unique-key lookup behind the resolver: `prisma.tag.findFirst({ where:
{ title } })` resp. `prisma.player.findFirst({ where: { name } })`. -/
def findEntityByKey (db : DB) (k : EntityKind) (label : String) : Option EntityId :=
  match k with
  | EntityKind.Tag => (db.tags.find? (fun t => t.title == label)).map Tag.id
  | EntityKind.Player => (db.players.find? (fun p => p.name == label)).map Player.id

/-- Rows of `k` whose unique key equals `label`. -/
def keyCount (db : DB) (k : EntityKind) (label : String) : Nat :=
  match k with
  | EntityKind.Tag => (db.tags.filter (fun t => t.title == label)).length
  | EntityKind.Player => (db.players.filter (fun p => p.name == label)).length

/-- The get-or-create step shared by `createPlayerConnections` and the tag
loops of POST/PUT /games: find a row with the key, create one when absent,
return its id. -/
def resolve (db : DB) (k : EntityKind) (label : String) : DB × EntityId :=
  match k with
  | EntityKind.Tag =>
    match db.tags.find? (fun t => t.title == label) with
    | some t => (db, t.id)
    | none =>
      ({ db with tags := db.tags ++ [{ id := db.nextId, title := label }],
                 nextId := db.nextId + 1 }, db.nextId)
  | EntityKind.Player =>
    match db.players.find? (fun p => p.name == label) with
    | some p => (db, p.id)
    | none =>
      ({ db with players := db.players ++ [{ id := db.nextId, name := label }],
                 nextId := db.nextId + 1 }, db.nextId)

/-- The `for (const tag of tags) { … }` / `for (const player of players)`
loops: resolve each label in order, threading the state. -/
def resolveLabels (db : DB) (k : EntityKind) (labels : List String) : DB × List EntityId :=
  labels.foldl
    (fun acc l =>
      let r := resolve acc.1 k l
      (r.1, acc.2 ++ [r.2]))
    (db, [])

/-- Helper `createPlayerConnections`: only when `players && players.length > 0`
does it resolve names and return connections; otherwise the update/create
receives `undefined` and Prisma leaves the relation untouched. -/
def createPlayerConnections (db : DB) (players : Option (List String)) :
    DB × Option (List EntityId) :=
  match players with
  | some ps =>
    if ps.isEmpty then (db, none)
    else
      let r := resolveLabels db EntityKind.Player ps
      (r.1, some r.2)
  | none => (db, none)

/-- Prisma relation `connect`: add each association that is not already
present (the join table's (A,B) primary key forbids duplicates). -/
def connectAssocs (assoc : List (EntityId × EntityId)) (fixed : EntityId)
    (ids : List EntityId) : List (EntityId × EntityId) :=
  ids.foldl (fun a i => if a.contains (i, fixed) then a else a ++ [(i, fixed)]) assoc

/-- POST /games/:gameId/addWishlist: 404 when the game is missing, 400 when
it is owned, 400 when a Wishlist row already exists, otherwise create the
row (reason defaulting to "") and return it with the parent game embedded. -/
def addToWishlist (db : DB) (gid : EntityId) (reason : Option String) :
    Except ApiError (Wishlist × Game) × DB :=
  match findGame db gid with
  | none => (Except.error ApiError.NotFound, db)
  | some game =>
    if game.isOwned then (Except.error ApiError.InvalidState, db)
    else
      match findWishlistByGame db gid with
      | some _ => (Except.error ApiError.Conflict, db)
      | none =>
        let w : Wishlist := { id := db.nextId, reason := reason.getD "", gameId := gid }
        (Except.ok (w, game),
         { db with wishlists := db.wishlists ++ [w], nextId := db.nextId + 1 })

/-- POST /games/:gameId/removeWishlist: 404 when the game is missing, 400
when it has no Wishlist row, otherwise `prisma.$transaction` deletes the row
and sets isOwned = true — modelled as one atomic state transition, exactly
as the transaction makes the pair of writes. -/
def removeFromWishlist (db : DB) (gid : EntityId) : Except ApiError Unit × DB :=
  match findGame db gid with
  | none => (Except.error ApiError.NotFound, db)
  | some _ =>
    match findWishlistByGame db gid with
    | none => (Except.error ApiError.InvalidState, db)
    | some _ =>
      (Except.ok (),
       { db with
         wishlists := db.wishlists.filter (fun w => !(w.gameId == gid)),
         games := db.games.map
           (fun g => if g.id == gid then { g with isOwned := true } else g) })


/-- Body of POST /games/: scalar columns plus an optional tag list
(each tag given by its title). -/
structure GameCreateInput where
  title : String
  isOwned : Bool
  myRating : Option Int
  tags : Option (List String)
deriving DecidableEq, Repr

/-- POST /games/: get-or-create every tag title (only when a non-empty list
is supplied), then create the game connected to the resolved tags. -/
def createGame (db : DB) (inp : GameCreateInput) : Game × DB :=
  let r :=
    match inp.tags with
    | some ts => if ts.isEmpty then (db, ([] : List EntityId)) else resolveLabels db EntityKind.Tag ts
    | none => (db, [])
  let db1 := r.1
  let g : Game := { id := db1.nextId, title := inp.title, isOwned := inp.isOwned,
                    myRating := inp.myRating }
  (g, { db1 with
        games := db1.games ++ [g],
        gameTags := r.2.foldl
          (fun a t => if a.contains (g.id, t) then a else a ++ [(g.id, t)]) db1.gameTags,
        nextId := db1.nextId + 1 })

/-- Body of PUT /games/:gameId: every scalar field is optional (the handler
spreads whatever the body carries into the update), `tags` is the optional
tag list. -/
structure GameUpdateInput where
  title : Option String
  isOwned : Option Bool
  myRating : Option Int
  tags : Option (List String)
deriving DecidableEq, Repr

/-- The `...gameDetail` spread: a field present in the body overwrites the
stored column, an absent field leaves it. -/
def applyGameUpdate (g : Game) (inp : GameUpdateInput) : Game :=
  { g with
    title := inp.title.getD g.title,
    isOwned := inp.isOwned.getD g.isOwned,
    myRating := match inp.myRating with | some r => some r | none => g.myRating }

/-- PUT /games/:gameId: the tag loop runs first (get-or-create for a
non-empty list, `set: []` otherwise — also when `tags` is absent), then
`prisma.game.update` replaces the scalar columns and SETS the tag relation
(full replacement); a missing game surfaces as Prisma P2025, caught as 500. -/
def updateGame (db : DB) (gid : EntityId) (inp : GameUpdateInput) :
    Except DbError Game × DB :=
  let r :=
    match inp.tags with
    | some ts => if ts.isEmpty then (db, ([] : List EntityId)) else resolveLabels db EntityKind.Tag ts
    | none => (db, [])
  let db1 := r.1
  match findGame db1 gid with
  | none => (Except.error DbError.RecordNotFound, db1)
  | some g =>
    let g2 := applyGameUpdate g inp
    (Except.ok g2,
     { db1 with
       games := db1.games.map (fun x => if x.id == gid then g2 else x),
       gameTags := db1.gameTags.filter (fun p => !(p.1 == gid))
                     ++ (r.2.eraseDups.map (fun t => (gid, t))) })

/-- DELETE /games/:gameId: `prisma.game.delete` fails when the game is
missing (P2025) or when a Session, Wishlist or File row references it
(gameId foreign keys are ON DELETE RESTRICT → P2003); on success the
_GameToTag join rows vanish (ON DELETE CASCADE) while Tag rows stay. -/
def deleteGame (db : DB) (gid : EntityId) : Except Unit Unit × DB :=
  match findGame db gid with
  | none => (Except.error (), db)
  | some _ =>
    if db.sessions.any (fun s => s.gameId == gid) ||
       db.wishlists.any (fun w => w.gameId == gid) ||
       db.files.any (fun f => f.gameId == gid) then
      (Except.error (), db)
    else
      (Except.ok (),
       { db with
         games := db.games.filter (fun g => !(g.id == gid)),
         gameTags := db.gameTags.filter (fun p => !(p.1 == gid)) })

/-- POST /games/:gameId/sessions: 404 when the game is missing; otherwise
resolve the players (get-or-create) and create the session connected to
them. -/
def createSession (db : DB) (gid : EntityId) (date : Int) (notes : Option String)
    (players : Option (List String)) : Except ApiError Session × DB :=
  match findGame db gid with
  | none => (Except.error ApiError.NotFound, db)
  | some _ =>
    let r := createPlayerConnections db players
    let db1 := r.1
    let s : Session := { id := db1.nextId, date := date, notes := notes, gameId := gid }
    (Except.ok s,
     { db1 with
       sessions := db1.sessions ++ [s],
       sessionPlayers :=
         match r.2 with
         | none => db1.sessionPlayers
         | some ids => connectAssocs db1.sessionPlayers s.id ids,
       nextId := db1.nextId + 1 })

/-- PUT /sessions/:sessionId: resolve the players first; `prisma.session.update`
sets date/notes when supplied and passes the player relation either as
`connect` (non-empty list: ADDS associations) or as `undefined` (absent or
empty list: relation untouched); a missing session is P2025 → 500. -/
def updateSession (db : DB) (sid : EntityId) (date : Option Int) (notes : Option String)
    (players : Option (List String)) : Except DbError Session × DB :=
  let r := createPlayerConnections db players
  let db1 := r.1
  match db1.sessions.find? (fun s => s.id == sid) with
  | none => (Except.error DbError.RecordNotFound, db1)
  | some s =>
    let s2 : Session := { s with
      date := date.getD s.date,
      notes := match notes with | some n => some n | none => s.notes }
    (Except.ok s2,
     { db1 with
       sessions := db1.sessions.map (fun x => if x.id == sid then s2 else x),
       sessionPlayers :=
         match r.2 with
         | none => db1.sessionPlayers
         | some ids => connectAssocs db1.sessionPlayers sid ids })

/-- GET /games/wishlist: `where: { isOwned: false, wishlist: { isNot: null } }`
(the createdAt ordering is presentation only and elided). -/
def wishlistGames (db : DB) : List Game :=
  db.games.filter (fun g => !g.isOwned && (findWishlistByGame db g.id).isSome)

/-- A minimal HTTP reply: status code and an optional JSON body. -/
structure HttpReply (α : Type) where
  status : Nat
  body : Option α
deriving DecidableEq, Repr

/-- GET /games/:gameId: `findFirst` then `res.json(game)` with no explicit
status — Express answers 200, with a `null` body when no game matched. -/
def getGameReply (db : DB) (gid : EntityId) : HttpReply Game :=
  { status := 200, body := findGame db gid }

/-- GET /games/:gameId/sessions: 404 when the game is missing, otherwise the
game's sessions with status 200 (the date ordering is elided). -/
def getSessionsReply (db : DB) (gid : EntityId) : HttpReply (List Session) :=
  match findGame db gid with
  | none => { status := 404, body := none }
  | some _ => { status := 200, body := some (db.sessions.filter (fun s => s.gameId == gid)) }

/-- The spec's invariant: a game has a Wishlist row only while isOwned is
false. -/
def wishlistInvariant (db : DB) : Bool :=
  db.wishlists.all (fun w => db.games.all (fun g => !(g.id == w.gameId) || !g.isOwned))

/-! ### Sample databases for the concrete witnesses -/

/-- The game used in the sample states. -/
def catan (owned : Bool) : Game :=
  { id := 0, title := "Catan", isOwned := owned, myRating := none }

/-- One unowned game, no wishlist row. -/
def sampleUnownedDB : DB :=
  { games := [catan false], wishlists := [], tags := [], players := []
    sessions := [], files := [], gameTags := [], sessionPlayers := [], nextId := 1 }

/-- One owned game, no wishlist row. -/
def sampleOwnedDB : DB :=
  { games := [catan true], wishlists := [], tags := [], players := []
    sessions := [], files := [], gameTags := [], sessionPlayers := [], nextId := 1 }

/-- One unowned game that already has a wishlist row. -/
def sampleWishlistedDB : DB :=
  { games := [catan false]
    wishlists := [{ id := 1, reason := "heard good things", gameId := 0 }]
    tags := [], players := [], sessions := [], files := []
    gameTags := [], sessionPlayers := [], nextId := 2 }

/-! ### Shared helper lemmas -/

/-- What a successful addToWishlist computes: the created row and the new
state, spelled out. -/
theorem addToWishlist_ok_eq (db : DB) (gid : EntityId) (reason : Option String)
    (g : Game) (hg : findGame db gid = some g) (ho : g.isOwned = false)
    (hw : findWishlistByGame db gid = none) :
    addToWishlist db gid reason =
      (Except.ok ({ id := db.nextId, reason := reason.getD "", gameId := gid }, g),
       { db with
         wishlists := db.wishlists ++ [{ id := db.nextId, reason := reason.getD "", gameId := gid }],
         nextId := db.nextId + 1 }) := by
  simp [addToWishlist, hg, ho, hw]

/-- No wishlist row found means no row passes the gameId filter. -/
theorem wishlist_filter_nil (db : DB) (gid : EntityId)
    (hw : findWishlistByGame db gid = none) :
    db.wishlists.filter (fun w => w.gameId == gid) = [] :=
  List.filter_eq_nil_iff.mpr (List.find?_eq_none.mp hw)

/-- What a successful removeFromWishlist computes, spelled out. -/
theorem removeFromWishlist_ok_eq (db : DB) (gid : EntityId) (g : Game) (w : Wishlist)
    (hg : findGame db gid = some g) (hw : findWishlistByGame db gid = some w) :
    removeFromWishlist db gid =
      (Except.ok (),
       { db with
         wishlists := db.wishlists.filter (fun w => !(w.gameId == gid)),
         games := db.games.map
           (fun g => if g.id == gid then { g with isOwned := true } else g) }) := by
  simp [removeFromWishlist, hg, hw]

/-! ### C1 -/

/-- C1: for every game that exists and has a Wishlist row, removeFromWishlist
succeeds; in the successor state (produced by the single atomic transition
modelling the handler's `$transaction`, so no intermediate state exists) no
Wishlist row for the game remains, the game's isOwned is true, every other
table is untouched, and wishlist rows of other games survive. -/
theorem removeFromWishlist_deletes_row_and_sets_owned (db : DB) (gid : EntityId)
    (hg : (findGame db gid).isSome = true)
    (hw : (findWishlistByGame db gid).isSome = true) :
    ∃ db2, removeFromWishlist db gid = (Except.ok (), db2) ∧
      findWishlistByGame db2 gid = none ∧
      (∀ g ∈ db2.games, g.id = gid → g.isOwned = true) ∧
      db2.tags = db.tags ∧ db2.players = db.players ∧
      db2.sessions = db.sessions ∧ db2.files = db.files ∧
      db2.gameTags = db.gameTags ∧
      (∀ w ∈ db.wishlists, w.gameId ≠ gid → w ∈ db2.wishlists) := by
  rw [Option.isSome_iff_exists] at hg hw
  obtain ⟨g, hg⟩ := hg
  obtain ⟨w, hw⟩ := hw
  refine ⟨_, removeFromWishlist_ok_eq db gid g w hg hw, ?_, ?_, rfl, rfl, rfl, rfl, rfl, ?_⟩
  · show List.find? (fun w => w.gameId == gid)
      (db.wishlists.filter (fun w => !(w.gameId == gid))) = none
    rw [List.find?_eq_none]
    intro x hx
    simpa using (List.mem_filter.mp hx).2
  · intro g2 hg2 hid
    rcases List.mem_map.mp hg2 with ⟨a, -, rfl⟩
    by_cases h : a.id = gid
    · simp [h]
    · simp [h] at hid
  · intro w2 hw2 hne
    exact List.mem_filter.mpr ⟨hw2, by simpa using hne⟩

/-- C1 witness: on the sample wishlisted state the removal succeeds. -/
theorem removeFromWishlist_deletes_row_and_sets_owned_witness :
    (removeFromWishlist sampleWishlistedDB 0).1 = Except.ok () := by
  obtain ⟨db2, h, -⟩ :=
    removeFromWishlist_deletes_row_and_sets_owned sampleWishlistedDB 0 (by decide) (by decide)
  rw [h]

/-! ### C5 -/

/-- C5: removeFromWishlist answers NotFound when the game is missing and
InvalidState when the game has no Wishlist row, and in both cases returns
the state completely unchanged. -/
theorem removeFromWishlist_error_cases (db : DB) (gid : EntityId) :
    (findGame db gid = none →
      removeFromWishlist db gid = (Except.error ApiError.NotFound, db)) ∧
    (∀ g, findGame db gid = some g → findWishlistByGame db gid = none →
      removeFromWishlist db gid = (Except.error ApiError.InvalidState, db)) := by
  constructor
  · intro h
    simp [removeFromWishlist, h]
  · intro g hg hw
    simp [removeFromWishlist, hg, hw]

/-- C5 witness: both error cases on concrete states. -/
theorem removeFromWishlist_error_cases_witness :
    removeFromWishlist emptyDB 0 = (Except.error ApiError.NotFound, emptyDB) ∧
    removeFromWishlist sampleUnownedDB 0 =
      (Except.error ApiError.InvalidState, sampleUnownedDB) :=
  ⟨(removeFromWishlist_error_cases emptyDB 0).1 rfl,
   (removeFromWishlist_error_cases sampleUnownedDB 0).2 (catan false) rfl rfl⟩

/-! ### C3 -/

/-- C3: addToWishlist fails with NotFound when the game is missing, with
InvalidState when it is owned, with Conflict when a Wishlist row exists —
each failure leaving the state untouched — and a second call on the same
unowned game fails with Conflict leaving exactly one Wishlist row. -/
theorem addToWishlist_error_cases (db : DB) (gid : EntityId) (reason : Option String) :
    (findGame db gid = none →
      addToWishlist db gid reason = (Except.error ApiError.NotFound, db)) ∧
    (∀ g, findGame db gid = some g → g.isOwned = true →
      addToWishlist db gid reason = (Except.error ApiError.InvalidState, db)) ∧
    (∀ g w, findGame db gid = some g → g.isOwned = false →
      findWishlistByGame db gid = some w →
      addToWishlist db gid reason = (Except.error ApiError.Conflict, db)) ∧
    (∀ g, findGame db gid = some g → g.isOwned = false →
      findWishlistByGame db gid = none →
      (addToWishlist (addToWishlist db gid reason).2 gid reason).1 =
        Except.error ApiError.Conflict ∧
      (addToWishlist (addToWishlist db gid reason).2 gid reason).2 =
        (addToWishlist db gid reason).2 ∧
      wishlistCountFor (addToWishlist db gid reason).2 gid = 1) := by
  refine ⟨?_, ?_, ?_, ?_⟩
  · intro h
    simp [addToWishlist, h]
  · intro g hg ho
    simp [addToWishlist, hg, ho]
  · intro g w hg ho hww
    simp [addToWishlist, hg, ho, hww]
  · intro g hg ho hw
    rw [addToWishlist_ok_eq db gid reason g hg ho hw]
    have hfind : findGame { db with
        wishlists := db.wishlists ++ [{ id := db.nextId, reason := reason.getD "", gameId := gid }],
        nextId := db.nextId + 1 } gid = some g := hg
    have hw' : List.find? (fun w => w.gameId == gid) db.wishlists = none := hw
    have hwfind : findWishlistByGame { db with
        wishlists := db.wishlists ++ [{ id := db.nextId, reason := reason.getD "", gameId := gid }],
        nextId := db.nextId + 1 } gid =
        some { id := db.nextId, reason := reason.getD "", gameId := gid } := by
      show List.find? (fun w => w.gameId == gid)
        (db.wishlists ++ [{ id := db.nextId, reason := reason.getD "", gameId := gid }]) = _
      rw [List.find?_append, hw']
      simp
    refine ⟨?_, ?_, ?_⟩
    · simp [addToWishlist, hfind, ho, hwfind]
    · simp [addToWishlist, hfind, ho, hwfind]
    · simp [wishlistCountFor, List.filter_append, wishlist_filter_nil db gid hw]

/-- C3 witness: all four cases on concrete states. -/
theorem addToWishlist_error_cases_witness :
    addToWishlist emptyDB 0 none = (Except.error ApiError.NotFound, emptyDB) ∧
    addToWishlist sampleOwnedDB 0 none =
      (Except.error ApiError.InvalidState, sampleOwnedDB) ∧
    addToWishlist sampleWishlistedDB 0 none =
      (Except.error ApiError.Conflict, sampleWishlistedDB) ∧
    ((addToWishlist (addToWishlist sampleUnownedDB 0 none).2 0 none).1 =
        Except.error ApiError.Conflict ∧
     (addToWishlist (addToWishlist sampleUnownedDB 0 none).2 0 none).2 =
        (addToWishlist sampleUnownedDB 0 none).2 ∧
     wishlistCountFor (addToWishlist sampleUnownedDB 0 none).2 0 = 1) :=
  ⟨(addToWishlist_error_cases emptyDB 0 none).1 rfl,
   (addToWishlist_error_cases sampleOwnedDB 0 none).2.1 (catan true) rfl rfl,
   (addToWishlist_error_cases sampleWishlistedDB 0 none).2.2.1 (catan false)
     { id := 1, reason := "heard good things", gameId := 0 } rfl rfl rfl,
   (addToWishlist_error_cases sampleUnownedDB 0 none).2.2.2 (catan false) rfl rfl rfl⟩

/-! ### C4 -/

/-- C4: for an existing unowned game with no Wishlist row, addToWishlist
creates exactly one row referencing the game carrying the given reason
(default ""), returns the row with the parent game embedded, and leaves the
game table — in particular isOwned — unchanged. -/
theorem addToWishlist_success_spec (db : DB) (gid : EntityId) (reason : Option String)
    (g : Game) (hg : findGame db gid = some g) (ho : g.isOwned = false)
    (hw : findWishlistByGame db gid = none) :
    ∃ w db2, addToWishlist db gid reason = (Except.ok (w, g), db2) ∧
      w.gameId = gid ∧ w.reason = reason.getD "" ∧
      db2.wishlists = db.wishlists ++ [w] ∧
      wishlistCountFor db2 gid = 1 ∧
      db2.games = db.games ∧ g.id = gid ∧ g.isOwned = false := by
  refine ⟨_, _, addToWishlist_ok_eq db gid reason g hg ho hw,
          rfl, rfl, rfl, ?_, rfl, ?_, ho⟩
  · simp [wishlistCountFor, List.filter_append, wishlist_filter_nil db gid hw]
  · simpa using List.find?_some hg

/-- C4 witness: on the sample unowned state the created row is the only one. -/
theorem addToWishlist_success_spec_witness :
    wishlistCountFor (addToWishlist sampleUnownedDB 0 (some "fun")).2 0 = 1 := by
  obtain ⟨w, db2, hkey, -, -, -, hcount, -⟩ :=
    addToWishlist_success_spec sampleUnownedDB 0 (some "fun") (catan false) rfl rfl rfl
  rw [hkey]
  exact hcount

/-! ### Generic list facts shared by the resolver proofs -/

theorem find?_append_of_none {α : Type} {p : α → Bool} {l : List α}
    (h : l.find? p = none) (a : α) (ha : p a = true) : (l ++ [a]).find? p = some a := by
  rw [List.find?_append, h]
  simp [ha]

theorem filter_append_of_none {α : Type} {p : α → Bool} {l : List α}
    (h : l.find? p = none) (a : α) (ha : p a = true) : (l ++ [a]).filter p = [a] := by
  rw [List.filter_append, List.filter_eq_nil_iff.mpr (List.find?_eq_none.mp h)]
  simp [ha]

theorem filter_length_one_of_find? {α : Type} {p : α → Bool} {l : List α} {a : α}
    (h : l.find? p = some a) (hle : (l.filter p).length ≤ 1) :
    (l.filter p).length = 1 := by
  have ha : a ∈ l.filter p :=
    List.mem_filter.mpr ⟨List.mem_of_find?_eq_some h, List.find?_some h⟩
  have h1 : 0 < (l.filter p).length := List.length_pos.mpr (List.ne_nil_of_mem ha)
  omega

/-- `resolve` on an existing Tag key returns the found row's id, no change. -/
theorem resolve_tag_found (db : DB) (label : String) (t : Tag)
    (h : db.tags.find? (fun t => t.title == label) = some t) :
    resolve db EntityKind.Tag label = (db, t.id) := by
  simp [resolve, h]

/-- `resolve` on a fresh Tag key appends one row keyed by the label. -/
theorem resolve_tag_fresh (db : DB) (label : String)
    (h : db.tags.find? (fun t => t.title == label) = none) :
    resolve db EntityKind.Tag label =
      ({ db with tags := db.tags ++ [{ id := db.nextId, title := label }],
                 nextId := db.nextId + 1 }, db.nextId) := by
  simp [resolve, h]

/-- `resolve` on an existing Player key returns the found row's id. -/
theorem resolve_player_found (db : DB) (label : String) (p : Player)
    (h : db.players.find? (fun p => p.name == label) = some p) :
    resolve db EntityKind.Player label = (db, p.id) := by
  simp [resolve, h]

/-- `resolve` on a fresh Player key appends one row keyed by the label. -/
theorem resolve_player_fresh (db : DB) (label : String)
    (h : db.players.find? (fun p => p.name == label) = none) :
    resolve db EntityKind.Player label =
      ({ db with players := db.players ++ [{ id := db.nextId, name := label }],
                 nextId := db.nextId + 1 }, db.nextId) := by
  simp [resolve, h]

/-! ### C6 -/

/-- C6: the get-or-create resolver is idempotent for both kinds: a second
resolution of the same label returns the same id and changes nothing, a row
is created only on the first call when none with the key exists (none when
one does), afterwards exactly one row carries the key (the match on the
unique key is plain String equality, hence exact and case-sensitive), and
the key lookup in the successor state binds the label to the returned id. -/
theorem resolve_get_or_create_idempotent (db : DB) (k : EntityKind) (label : String)
    (h : keyCount db k label ≤ 1) :
    (resolve (resolve db k label).1 k label).2 = (resolve db k label).2 ∧
    (resolve (resolve db k label).1 k label).1 = (resolve db k label).1 ∧
    keyCount (resolve db k label).1 k label = 1 ∧
    (keyCount db k label = 1 → (resolve db k label).1 = db) ∧
    findEntityByKey (resolve db k label).1 k label = some (resolve db k label).2 := by
  cases k
  case Tag =>
    cases hfind : db.tags.find? (fun t => t.title == label)
    case some t =>
      rw [resolve_tag_found db label t hfind]
      exact ⟨by rw [resolve_tag_found db label t hfind],
             by rw [resolve_tag_found db label t hfind],
             filter_length_one_of_find? hfind h, fun _ => rfl,
             by simp [findEntityByKey, hfind]⟩
    case none =>
      rw [resolve_tag_fresh db label hfind]
      have hfind2 : (({ db with
                        tags := db.tags ++ [{ id := db.nextId, title := label }],
                        nextId := db.nextId + 1 } : DB).tags).find?
            (fun t => t.title == label) =
          some { id := db.nextId, title := label } :=
        find?_append_of_none hfind _ (by simp)
      have hres2 := resolve_tag_found _ label _ hfind2
      refine ⟨by rw [hres2], by rw [hres2], ?_, ?_, ?_⟩
      · show ((db.tags ++ [({ id := db.nextId, title := label } : Tag)]).filter
          (fun t => t.title == label)).length = 1
        rw [filter_append_of_none hfind _ (by simp)]
        rfl
      · intro h1
        exfalso
        have hnil : db.tags.filter (fun t => t.title == label) = [] :=
          List.filter_eq_nil_iff.mpr (List.find?_eq_none.mp hfind)
        simp [keyCount, hnil] at h1
      · show ((({ db with
                    tags := db.tags ++ [{ id := db.nextId, title := label }],
                    nextId := db.nextId + 1 } : DB).tags).find?
            (fun t => t.title == label)).map Tag.id = some db.nextId
        rw [hfind2]
        rfl
  case Player =>
    cases hfind : db.players.find? (fun p => p.name == label)
    case some t =>
      rw [resolve_player_found db label t hfind]
      exact ⟨by rw [resolve_player_found db label t hfind],
             by rw [resolve_player_found db label t hfind],
             filter_length_one_of_find? hfind h, fun _ => rfl,
             by simp [findEntityByKey, hfind]⟩
    case none =>
      rw [resolve_player_fresh db label hfind]
      have hfind2 : (({ db with
                        players := db.players ++ [{ id := db.nextId, name := label }],
                        nextId := db.nextId + 1 } : DB).players).find?
            (fun p => p.name == label) =
          some { id := db.nextId, name := label } :=
        find?_append_of_none hfind _ (by simp)
      have hres2 := resolve_player_found _ label _ hfind2
      refine ⟨by rw [hres2], by rw [hres2], ?_, ?_, ?_⟩
      · show ((db.players ++ [({ id := db.nextId, name := label } : Player)]).filter
          (fun p => p.name == label)).length = 1
        rw [filter_append_of_none hfind _ (by simp)]
        rfl
      · intro h1
        exfalso
        have hnil : db.players.filter (fun p => p.name == label) = [] :=
          List.filter_eq_nil_iff.mpr (List.find?_eq_none.mp hfind)
        simp [keyCount, hnil] at h1
      · show ((({ db with
                    players := db.players ++ [{ id := db.nextId, name := label }],
                    nextId := db.nextId + 1 } : DB).players).find?
            (fun p => p.name == label)).map Player.id = some db.nextId
        rw [hfind2]
        rfl

/-- C6 witness: resolving "Strategy" twice from the empty state creates one
Tag row and returns the same id both times. -/
theorem resolve_get_or_create_idempotent_witness :
    (resolve (resolve emptyDB EntityKind.Tag "Strategy").1 EntityKind.Tag "Strategy").2 =
      (resolve emptyDB EntityKind.Tag "Strategy").2 ∧
    keyCount (resolve emptyDB EntityKind.Tag "Strategy").1 EntityKind.Tag "Strategy" = 1 := by
  obtain ⟨h1, -, h3, -⟩ :=
    resolve_get_or_create_idempotent emptyDB EntityKind.Tag "Strategy" (by decide)
  exact ⟨h1, h3⟩

/-! ### C2 -/

/-- Propositional reading of the owned/wishlisted invariant. -/
theorem wishlistInvariant_iff (db : DB) :
    wishlistInvariant db = true ↔
      ∀ w ∈ db.wishlists, ∀ g ∈ db.games, g.id = w.gameId → g.isOwned = false := by
  simp only [wishlistInvariant, List.all_eq_true, Bool.or_eq_true, Bool.not_eq_true',
    beq_eq_false_iff_ne, ne_eq]
  constructor
  · intro h w hw g hg hid
    rcases h w hw g hg with h1 | h1
    · exact absurd hid h1
    · exact h1
  · intro h w hw g hg
    by_cases hid : g.id = w.gameId
    · exact Or.inr (h w hw g hg hid)
    · exact Or.inl hid

/-- The state returned by updateGame on the trace below, evaluated: the
wishlist row survives while the game becomes owned. -/
def violatingTrace : DB :=
  (updateGame
    (addToWishlist
      (createGame emptyDB
        { title := "Catan", isOwned := false, myRating := none, tags := none }).2
      0 none).2
    0 { title := none, isOwned := some true, myRating := none, tags := none }).2

/-- C2 counterexample: starting from the empty database, POST /games creates
an unowned game (id 0), POST /games/0/addWishlist succeeds, and then the
generic PUT /games/0 with body { isOwned: true } succeeds — producing a
reachable state where the owned game still has a Wishlist row, so the
claimed invariant is false. -/
theorem generic_update_breaks_invariant :
    (addToWishlist
        (createGame emptyDB
          { title := "Catan", isOwned := false, myRating := none, tags := none }).2
        0 none).1 =
      Except.ok ({ id := 1, reason := "", gameId := 0 }, catan false) ∧
    (updateGame
        (addToWishlist
          (createGame emptyDB
            { title := "Catan", isOwned := false, myRating := none, tags := none }).2
          0 none).2
        0 { title := none, isOwned := some true, myRating := none, tags := none }).1 =
      Except.ok (catan true) ∧
    wishlistInvariant violatingTrace = false :=
  ⟨rfl, rfl, rfl⟩

/-- C2 amended: the dedicated wishlist endpoints — and the game delete —
preserve the owned/wishlisted invariant (the generic PUT /games/:gameId does
not, as the counterexample shows: it can set isOwned without touching the
Wishlist row). -/
theorem wishlist_endpoints_preserve_invariant (db : DB) (gid : EntityId)
    (reason : Option String) (hnd : (db.games.map Game.id).Nodup)
    (h : wishlistInvariant db = true) :
    wishlistInvariant (addToWishlist db gid reason).2 = true ∧
    wishlistInvariant (removeFromWishlist db gid).2 = true ∧
    wishlistInvariant (deleteGame db gid).2 = true := by
  rw [wishlistInvariant_iff] at h
  refine ⟨?_, ?_, ?_⟩
  · cases hfg : findGame db gid
    case none =>
      have hs : (addToWishlist db gid reason).2 = db := by simp [addToWishlist, hfg]
      rw [hs, wishlistInvariant_iff]
      exact h
    case some g =>
      cases ho : g.isOwned
      case true =>
        have hs : (addToWishlist db gid reason).2 = db := by simp [addToWishlist, hfg, ho]
        rw [hs, wishlistInvariant_iff]
        exact h
      case false =>
        cases hfw : findWishlistByGame db gid
        case some w =>
          have hs : (addToWishlist db gid reason).2 = db := by
            simp [addToWishlist, hfg, ho, hfw]
          rw [hs, wishlistInvariant_iff]
          exact h
        case none =>
          rw [addToWishlist_ok_eq db gid reason g hfg ho hfw, wishlistInvariant_iff]
          intro w hw g2 hg2 hid
          rcases List.mem_append.mp hw with hw | hw
          · exact h w hw g2 hg2 hid
          · have hweq : w = { id := db.nextId, reason := reason.getD "", gameId := gid } :=
              List.mem_singleton.mp hw
            have hgid : g.id = gid := by simpa using List.find?_some hfg
            have hg2id : g2.id = gid := by rw [hid, hweq]
            have : g2 = g :=
              List.inj_on_of_nodup_map hnd hg2 (List.mem_of_find?_eq_some hfg)
                (by rw [hg2id, hgid])
            rw [this]
            exact ho
  · cases hfg : findGame db gid
    case none =>
      have hs : (removeFromWishlist db gid).2 = db := by simp [removeFromWishlist, hfg]
      rw [hs, wishlistInvariant_iff]
      exact h
    case some g =>
      cases hfw : findWishlistByGame db gid
      case none =>
        have hs : (removeFromWishlist db gid).2 = db := by
          simp [removeFromWishlist, hfg, hfw]
        rw [hs, wishlistInvariant_iff]
        exact h
      case some w0 =>
        rw [removeFromWishlist_ok_eq db gid g w0 hfg hfw, wishlistInvariant_iff]
        intro w hw g2 hg2 hid
        have hwmem := List.mem_filter.mp hw
        have hwne : w.gameId ≠ gid := by simpa using hwmem.2
        rcases List.mem_map.mp hg2 with ⟨a, ha, rfl⟩
        by_cases hc : a.id = gid
        · exfalso
          apply hwne
          simpa [hc] using hid.symm
        · simp [hc] at hid ⊢
          exact h w hwmem.1 a ha hid
  · cases hfg : findGame db gid
    case none =>
      have hs : (deleteGame db gid).2 = db := by simp [deleteGame, hfg]
      rw [hs, wishlistInvariant_iff]
      exact h
    case some g =>
      by_cases hdep : (db.sessions.any (fun s => s.gameId == gid) ||
          db.wishlists.any (fun w => w.gameId == gid) ||
          db.files.any (fun f => f.gameId == gid)) = true
      · have hs : (deleteGame db gid).2 = db := by simp [deleteGame, hfg, hdep]
        rw [hs, wishlistInvariant_iff]
        exact h
      · have hs : (deleteGame db gid).2 =
            { db with games := db.games.filter (fun g => !(g.id == gid)),
                      gameTags := db.gameTags.filter (fun p => !(p.1 == gid)) } := by
          simp only [deleteGame, hfg]
          rw [if_neg hdep]
        rw [hs, wishlistInvariant_iff]
        intro w hw g2 hg2 hid
        exact h w hw g2 (List.mem_of_mem_filter hg2) hid

/-- C2 amended witness: on the sample wishlisted state (distinct game ids,
invariant holding) the removal preserves the invariant. -/
theorem wishlist_endpoints_preserve_invariant_witness :
    wishlistInvariant (removeFromWishlist sampleWishlistedDB 0).2 = true := by
  obtain ⟨-, h2, -⟩ :=
    wishlist_endpoints_preserve_invariant sampleWishlistedDB 0 none (by decide) (by decide)
  exact h2

/-! ### C7 -/

/-- An owned game (id 0) tagged "Strategy" (tag id 1), with one session
(id 3) played by "Alice" (player id 2). -/
def sampleFullDB : DB :=
  { games := [catan true]
    wishlists := []
    tags := [{ id := 1, title := "Strategy" }]
    players := [{ id := 2, name := "Alice" }]
    sessions := [{ id := 3, date := 0, notes := none, gameId := 0 }]
    files := []
    gameTags := [(0, 1)], sessionPlayers := [(2, 3)], nextId := 4 }

/-- C7 counterexample: PUT /sessions/3 with an empty player list succeeds
but does NOT clear the session's player associations — the (Alice, session)
join row survives, because createPlayerConnections returns undefined for an
empty list and Prisma then leaves the relation untouched. -/
theorem session_empty_player_list_does_not_clear :
    (updateSession sampleFullDB 3 none none (some [])).1 =
      Except.ok { id := 3, date := 0, notes := none, gameId := 0 } ∧
    (updateSession sampleFullDB 3 none none (some [])).2.sessionPlayers = [(2, 3)] :=
  ⟨rfl, rfl⟩

/-- C7 amended: the full-replacement semantics holds for game tags — PUT
/games/:gameId with an empty tag list clears every game-tag association
while leaving the Tag rows intact — but PUT /sessions/:sessionId with an
empty player list leaves the existing player associations (and Player rows)
untouched rather than clearing them. -/
theorem empty_label_list_semantics (db : DB) (gid sid : EntityId) :
    (∀ g (inp : GameUpdateInput), findGame db gid = some g → inp.tags = some [] →
      (updateGame db gid inp).2.gameTags.filter (fun p => p.1 == gid) = [] ∧
      (updateGame db gid inp).2.tags = db.tags) ∧
    (∀ date notes, (updateSession db sid date notes (some [])).2.sessionPlayers =
        db.sessionPlayers ∧
      (updateSession db sid date notes (some [])).2.players = db.players) := by
  constructor
  · intro g inp hg hinp
    constructor
    · have hs : (updateGame db gid inp).2.gameTags =
          db.gameTags.filter (fun p => !(p.1 == gid)) := by
        simp [updateGame, hinp, hg]
        rfl
      rw [hs, List.filter_filter]
      simp
    · simp [updateGame, hinp, hg]
  · intro date notes
    cases hss : db.sessions.find? (fun s => s.id == sid) <;>
      exact ⟨by simp [updateSession, createPlayerConnections, hss],
             by simp [updateSession, createPlayerConnections, hss]⟩

/-- C7 amended witness: on the sample state the empty tag list clears the
game's tag links, and the empty player list leaves the session's links. -/
theorem empty_label_list_semantics_witness :
    (updateGame sampleFullDB 0
        { title := none, isOwned := none, myRating := none,
          tags := some [] }).2.gameTags.filter (fun p => p.1 == 0) = [] ∧
    (updateSession sampleFullDB 3 none none (some [])).2.sessionPlayers =
      sampleFullDB.sessionPlayers := by
  obtain ⟨hgame, hsession⟩ := empty_label_list_semantics sampleFullDB 0 3
  exact ⟨(hgame (catan true)
            { title := none, isOwned := none, myRating := none, tags := some [] }
            rfl rfl).1,
         (hsession none none).1⟩

/-! ### C8 -/

/-- C8: DELETE /games/:gameId fails and changes nothing whenever a Session,
Wishlist or File row references the game (their gameId foreign keys are ON
DELETE RESTRICT); when the game exists and its only dependents are tag
links, the delete succeeds, the game and its _GameToTag join rows vanish
(ON DELETE CASCADE on the join table), the Tag rows themselves survive, and
join rows of other games are untouched. -/
theorem deleteGame_restrict_and_cascade (db : DB) (gid : EntityId) :
    ((db.sessions.any (fun s => s.gameId == gid) ||
      db.wishlists.any (fun w => w.gameId == gid) ||
      db.files.any (fun f => f.gameId == gid)) = true →
      (deleteGame db gid).1 = Except.error () ∧ (deleteGame db gid).2 = db) ∧
    (∀ g, findGame db gid = some g →
      (db.sessions.any (fun s => s.gameId == gid) ||
       db.wishlists.any (fun w => w.gameId == gid) ||
       db.files.any (fun f => f.gameId == gid)) = false →
      (deleteGame db gid).1 = Except.ok () ∧
      (deleteGame db gid).2.games.filter (fun x => x.id == gid) = [] ∧
      (deleteGame db gid).2.gameTags.filter (fun p => p.1 == gid) = [] ∧
      (deleteGame db gid).2.tags = db.tags ∧
      (∀ p ∈ db.gameTags, p.1 ≠ gid → p ∈ (deleteGame db gid).2.gameTags)) := by
  constructor
  · intro hdep
    cases hfg : findGame db gid <;>
      exact ⟨by simp [deleteGame, hfg, hdep], by simp [deleteGame, hfg, hdep]⟩
  · intro g hg hdep
    have hs : (deleteGame db gid).2 =
        { db with games := db.games.filter (fun g => !(g.id == gid)),
                  gameTags := db.gameTags.filter (fun p => !(p.1 == gid)) } := by
      simp [deleteGame, hg, hdep]
    refine ⟨by simp [deleteGame, hg, hdep], ?_, ?_, by rw [hs], ?_⟩
    · rw [hs]
      show (db.games.filter _).filter _ = []
      rw [List.filter_filter]
      simp
    · rw [hs]
      show (db.gameTags.filter _).filter _ = []
      rw [List.filter_filter]
      simp
    · intro p hp hne
      rw [hs]
      exact List.mem_filter.mpr ⟨hp, by simpa using hne⟩

/-- A game whose only dependents are tag links (no Session/Wishlist/File). -/
def sampleTaggedOnlyDB : DB :=
  { games := [catan true]
    wishlists := []
    tags := [{ id := 1, title := "Strategy" }]
    players := [], sessions := [], files := []
    gameTags := [(0, 1)], sessionPlayers := [], nextId := 2 }

/-- C8 witness: deleting the sampled game fails while its session exists,
and deleting a game whose only dependents are tag links succeeds, dropping
the join row and keeping the Tag row. -/
theorem deleteGame_restrict_and_cascade_witness :
    (deleteGame sampleFullDB 0).2 = sampleFullDB ∧
    (deleteGame sampleTaggedOnlyDB 0).1 = Except.ok () ∧
    (deleteGame sampleTaggedOnlyDB 0).2.tags = sampleTaggedOnlyDB.tags := by
  obtain ⟨-, h2⟩ := (deleteGame_restrict_and_cascade sampleFullDB 0).1 (by decide)
  obtain ⟨h3, -, -, h4, -⟩ :=
    (deleteGame_restrict_and_cascade sampleTaggedOnlyDB 0).2 (catan true) rfl (by decide)
  exact ⟨h2, h3, h4⟩

/-! ### C9 -/

/-- C9: GET /games/wishlist returns exactly the games that are unowned and
have a Wishlist row: membership in the result is equivalent to the
conjunction of the two conditions. -/
theorem wishlistGames_characterization (db : DB) (g : Game) :
    g ∈ wishlistGames db ↔
      g ∈ db.games ∧ g.isOwned = false ∧ (findWishlistByGame db g.id).isSome = true := by
  simp [wishlistGames, List.mem_filter, and_assoc]

/-! ### C10 -/

/-- C10: GET /games/:gameId with an unknown id answers 200 with a null body,
while the wishlist endpoints and the session endpoints answer NotFound
(HTTP 404) for the same missing game. -/
theorem getGameById_missing_is_200_null (db : DB) (gid : EntityId)
    (h : findGame db gid = none) :
    getGameReply db gid = { status := 200, body := none } ∧
    (getSessionsReply db gid).status = 404 ∧
    (∀ reason, (addToWishlist db gid reason).1 = Except.error ApiError.NotFound) ∧
    (removeFromWishlist db gid).1 = Except.error ApiError.NotFound ∧
    (∀ date notes players, (createSession db gid date notes players).1 =
      Except.error ApiError.NotFound) ∧
    ApiError.NotFound.toStatus = 404 := by
  refine ⟨?_, ?_, ?_, ?_, ?_, rfl⟩ <;>
    simp [getGameReply, getSessionsReply, addToWishlist, removeFromWishlist,
      createSession, h]

/-- C10 witness: on the empty database, id 7 matches no game. -/
theorem getGameById_missing_is_200_null_witness :
    getGameReply emptyDB 7 = { status := 200, body := none } ∧
    (getSessionsReply emptyDB 7).status = 404 := by
  obtain ⟨h1, h2, -⟩ := getGameById_missing_is_200_null emptyDB 7 rfl
  exact ⟨h1, h2⟩

end BoardGameShelf
